import Mathlib

/-!
Verification of the k8s-chat agent orchestration core: a shallow embedding of
the command-safety classifier and gated kubectl execution
(backend/extensions/k8s/tools/kubectl.py), the session/streaming service
(backend/app/services/goose_service.py), the durable chat workflow
(backend/app/temporal/workflows.py) and the conversation store
(backend/app/services/chat_service.py), together with theorems settling the
specification's claims about them.
-/

/-! ## Command-safety classifier (KubectlTool, kubectl.py) -/

/-- KubectlTool.SAFE_COMMANDS: read-only or low-risk kubectl subcommands. -/
def SAFE_COMMANDS : List String :=
  ["get", "describe", "logs", "top", "version", "cluster-info",
   "config", "explain", "api-resources", "api-versions"]

/-- KubectlTool.WRITE_COMMANDS: subcommands that require confirmation. -/
def WRITE_COMMANDS : List String :=
  ["apply", "create", "replace", "patch", "edit", "scale", "autoscale",
   "expose", "set", "label", "annotate"]

/-- KubectlTool.DANGEROUS_COMMANDS: restricted subcommands. -/
def DANGEROUS_COMMANDS : List String :=
  ["delete", "rollout", "drain", "cordon", "uncordon", "taint"]

/-- The dict returned by KubectlTool._check_command_security:
keys "allowed", "reason", "category". -/
structure SecurityCheck where
  allowed : Bool
  reason : String
  category : String
deriving DecidableEq, Repr

/-- KubectlTool._check_command_security(command, confirm): the dangerous set is
tested first, then unconfirmed writes, then safe or confirmed writes; anything
else is unknown and not allowed. -/
def checkCommandSecurity (command : String) (confirm : Bool) : SecurityCheck :=
  if command ∈ DANGEROUS_COMMANDS then
    { allowed := false
      reason := "Command '" ++ command ++ "' is dangerous and not allowed for safety"
      category := "dangerous" }
  else if command ∈ WRITE_COMMANDS ∧ confirm = false then
    { allowed := false
      reason := "Command '" ++ command ++
        "' modifies cluster state and requires confirmation (set confirm=true)"
      category := "write_needs_confirmation" }
  else if command ∈ SAFE_COMMANDS ∨ (command ∈ WRITE_COMMANDS ∧ confirm = true) then
    { allowed := true
      reason := "Command is safe to execute"
      category := if command ∈ SAFE_COMMANDS then "safe" else "confirmed_write" }
  else
    { allowed := false
      reason := "Unknown command '" ++ command ++ "' - not in allowed list"
      category := "unknown" }

/-- C1: every name in the dangerous set is classified as forbidden for both
values of the confirm flag: allowed is false, the category is "dangerous" and
the reason is the dangerous-command message. The confirm flag never overrides
this, and (the dangerous test being the first branch of the classifier) no
other classification is consulted first. -/
theorem dangerous_commands_always_forbidden
    (command : String) (confirm : Bool)
    (h : command ∈ DANGEROUS_COMMANDS) :
    (checkCommandSecurity command confirm).allowed = false ∧
    (checkCommandSecurity command confirm).category = "dangerous" ∧
    (checkCommandSecurity command confirm).reason =
      "Command '" ++ command ++ "' is dangerous and not allowed for safety" := by
  rw [checkCommandSecurity, if_pos h]
  exact ⟨rfl, rfl, rfl⟩

/-- Witness for C1 at command "delete", applied to both confirm values. -/
theorem dangerous_commands_always_forbidden_witness :
    ("delete" ∈ DANGEROUS_COMMANDS) ∧
    ((checkCommandSecurity "delete" true).allowed = false ∧
     (checkCommandSecurity "delete" true).category = "dangerous" ∧
     (checkCommandSecurity "delete" true).reason =
       "Command '" ++ "delete" ++ "' is dangerous and not allowed for safety") ∧
    ((checkCommandSecurity "delete" false).allowed = false ∧
     (checkCommandSecurity "delete" false).category = "dangerous" ∧
     (checkCommandSecurity "delete" false).reason =
       "Command '" ++ "delete" ++ "' is dangerous and not allowed for safety") :=
  ⟨by decide,
   dangerous_commands_always_forbidden "delete" true (by decide),
   dangerous_commands_always_forbidden "delete" false (by decide)⟩

/-- C2: every name in the write set is denied without confirmation (allowed
false, category "write_needs_confirmation", reason the requires-confirmation
message) and allowed with confirmation (allowed true, category
"confirmed_write"). -/
theorem write_commands_confirmation_gate
    (command : String)
    (h : command ∈ WRITE_COMMANDS) :
    (checkCommandSecurity command false).allowed = false ∧
    (checkCommandSecurity command false).category = "write_needs_confirmation" ∧
    (checkCommandSecurity command false).reason =
      "Command '" ++ command ++
        "' modifies cluster state and requires confirmation (set confirm=true)" ∧
    (checkCommandSecurity command true).allowed = true ∧
    (checkCommandSecurity command true).category = "confirmed_write" := by
  have hd : command ∉ DANGEROUS_COMMANDS := by
    simp only [WRITE_COMMANDS, List.mem_cons, List.not_mem_nil, or_false] at h
    rcases h with rfl | rfl | rfl | rfl | rfl | rfl | rfl | rfl | rfl | rfl | rfl <;> decide
  have hs : command ∉ SAFE_COMMANDS := by
    simp only [WRITE_COMMANDS, List.mem_cons, List.not_mem_nil, or_false] at h
    rcases h with rfl | rfl | rfl | rfl | rfl | rfl | rfl | rfl | rfl | rfl | rfl <;> decide
  refine ⟨?_, ?_, ?_, ?_, ?_⟩ <;>
    simp [checkCommandSecurity, hd, hs, h]

/-- Witness for C2 at command "scale". -/
theorem write_commands_confirmation_gate_witness :
    ("scale" ∈ WRITE_COMMANDS) ∧
    ((checkCommandSecurity "scale" false).allowed = false ∧
     (checkCommandSecurity "scale" false).category = "write_needs_confirmation" ∧
     (checkCommandSecurity "scale" false).reason =
       "Command '" ++ "scale" ++
         "' modifies cluster state and requires confirmation (set confirm=true)" ∧
     (checkCommandSecurity "scale" true).allowed = true ∧
     (checkCommandSecurity "scale" true).category = "confirmed_write") :=
  ⟨by decide, write_commands_confirmation_gate "scale" (by decide)⟩

/-- C3: a name in none of the three sets is classified unknown for both values
of the confirm flag, with allowed false — the classifier fails closed. -/
theorem unknown_commands_fail_closed
    (command : String) (confirm : Bool)
    (hs : command ∉ SAFE_COMMANDS)
    (hw : command ∉ WRITE_COMMANDS)
    (hd : command ∉ DANGEROUS_COMMANDS) :
    (checkCommandSecurity command confirm).allowed = false ∧
    (checkCommandSecurity command confirm).category = "unknown" ∧
    (checkCommandSecurity command confirm).reason =
      "Unknown command '" ++ command ++ "' - not in allowed list" := by
  simp [checkCommandSecurity, hs, hw, hd]

/-- Witness for C3 at command "exec" (in none of the three sets), confirm true. -/
theorem unknown_commands_fail_closed_witness :
    ("exec" ∉ SAFE_COMMANDS ∧ "exec" ∉ WRITE_COMMANDS ∧
     "exec" ∉ DANGEROUS_COMMANDS) ∧
    ((checkCommandSecurity "exec" true).allowed = false ∧
     (checkCommandSecurity "exec" true).category = "unknown" ∧
     (checkCommandSecurity "exec" true).reason =
       "Unknown command '" ++ "exec" ++ "' - not in allowed list") :=
  ⟨by decide,
   unknown_commands_fail_closed "exec" true (by decide) (by decide) (by decide)⟩

/-! ## Gated kubectl execution (KubectlTool.execute, kubectl.py) -/

/-- Python truthiness of an optional string: None and "" are falsy. -/
def optStrTruthy : Option String → Bool
  | none => false
  | some s => s ≠ ""

/-- The dict returned by KubectlTool._execute_command (it catches every
exception, so it is total): success flag, return code, stdout, stderr. -/
structure ExecResult where
  success : Bool
  returnCode : Int
  output : String
  error : String
deriving DecidableEq, Repr

/-- The target namespace: `namespace or self.default_namespace`. -/
def targetNamespaceOf (defaultNamespace : String) (ns : Option String) : String :=
  match ns with
  | some s => if s ≠ "" then s else defaultNamespace
  | none => defaultNamespace

/-- The kubectl argv built by KubectlTool.execute (lines 105-126): base
command, optional context, subcommand, namespace unless the subcommand is
version, cluster-info or config, extra args, and an output format only for
safe subcommands. -/
def buildCmdParts (kubectlContext : Option String) (defaultNamespace : String)
    (command : String) (args : Option (List String)) (ns : Option String)
    (output : Option String) : List String :=
  let base := ["kubectl"]
  let base := base ++ (match kubectlContext with
    | some c => if c ≠ "" then ["--context", c] else []
    | none => [])
  let base := base ++ [command]
  let target := targetNamespaceOf defaultNamespace ns
  let base := base ++
    (if target ≠ "" ∧ command ∉ ["version", "cluster-info", "config"] then
      ["-n", target] else [])
  let base := base ++ (match args with
    | some l => if l ≠ [] then l else []
    | none => [])
  base ++ (if optStrTruthy output = true ∧ command ∈ SAFE_COMMANDS then
    ["-o", (output.getD "")] else [])

/-- The dict returned by KubectlTool.execute. Keys absent on some paths
(security_check, command_executed, namespace) are Options defaulting to
none. -/
structure KubectlResult where
  success : Bool
  error : String
  output : String
  securityCheck : Option SecurityCheck := none
  commandExecuted : Option String := none
  resultNamespace : Option String := none
deriving DecidableEq, Repr

/-- KubectlTool.execute: empty-command check, kubectl availability check,
argv construction, security check, then execution. The external world enters
as the availability flag and as `runner`, the outcome _execute_command would
produce on an argv. The second component records the argv actually handed to
_execute_command — none when execution never happens. -/
def kubectlExecute (kubectlContext : Option String) (defaultNamespace : String)
    (command : String) (args : Option (List String)) (ns : Option String)
    (output : Option String) (confirm : Bool)
    (kubectlAvailable : Bool) (runner : List String → ExecResult) :
    KubectlResult × Option (List String) :=
  if command = "" then
    ({ success := false, error := "Command is required", output := "" }, none)
  else if kubectlAvailable = false then
    ({ success := false, error := "kubectl is not available", output := "" }, none)
  else
    let cmdParts := buildCmdParts kubectlContext defaultNamespace command args ns output
    let check := checkCommandSecurity command confirm
    if check.allowed = false then
      ({ success := false, error := check.reason, output := "",
         securityCheck := some check }, none)
    else
      let r := runner cmdParts
      ({ success := r.success, error := r.error, output := r.output,
         commandExecuted := some (String.intercalate " " cmdParts),
         resultNamespace := some (targetNamespaceOf defaultNamespace ns) },
       some cmdParts)

/-- C4 counterexample: at the empty command, the security verdict is
disallowed (unknown command), yet execute returns the preflight error
"Command is required" rather than the denial reason — so "on any disallowed
verdict the result carries the denial reason as the error" fails as stated
over every command string. -/
theorem kubectl_execute_empty_command_error_not_denial_reason :
    (checkCommandSecurity "" false).allowed = false ∧
    (kubectlExecute none "default" "" none none none false true
        (fun _ => ⟨true, 0, "", ""⟩)).1.error = "Command is required" ∧
    (kubectlExecute none "default" "" none none none false true
        (fun _ => ⟨true, 0, "", ""⟩)).1.error ≠
      (checkCommandSecurity "" false).reason := by
  refine ⟨by decide, rfl, by decide⟩

/-- C4 amended: execute hands an argv to _execute_command only when the
security check allows the command, and that argv is the built kubectl argv;
moreover, once the preflight checks pass (nonempty command, kubectl
available), any disallowed verdict yields success=false with the denial
reason as the error and no execution. On the preflight paths the command is
likewise never executed, but the error is the preflight message rather than
the denial reason. -/
theorem kubectl_execute_gated_by_security_check
    (kubectlContext : Option String) (defaultNamespace : String)
    (command : String) (args : Option (List String)) (ns : Option String)
    (output : Option String) (confirm : Bool)
    (kubectlAvailable : Bool) (runner : List String → ExecResult) :
    (∀ argv,
      (kubectlExecute kubectlContext defaultNamespace command args ns output
          confirm kubectlAvailable runner).2 = some argv →
      (checkCommandSecurity command confirm).allowed = true ∧
      argv = buildCmdParts kubectlContext defaultNamespace command args ns output) ∧
    (command ≠ "" → kubectlAvailable = true →
      (checkCommandSecurity command confirm).allowed = false →
      kubectlExecute kubectlContext defaultNamespace command args ns output
          confirm kubectlAvailable runner =
        ({ success := false, error := (checkCommandSecurity command confirm).reason,
           output := "",
           securityCheck := some (checkCommandSecurity command confirm) }, none)) := by
  constructor
  · intro argv hargv
    by_cases hc : command = ""
    · simp [kubectlExecute, hc] at hargv
    · by_cases ha : kubectlAvailable = false
      · simp [kubectlExecute, hc, ha] at hargv
      · by_cases hs : (checkCommandSecurity command confirm).allowed = false
        · rw [kubectlExecute, if_neg hc, if_neg ha] at hargv
          simp only [hs, if_true] at hargv
          exact absurd hargv (by simp)
        · rw [kubectlExecute, if_neg hc, if_neg ha] at hargv
          simp only [hs, if_false] at hargv
          refine ⟨by simpa using hs, ?_⟩
          exact (Option.some_inj.mp hargv).symm
  · intro hc ha hs
    have ha' : ¬ kubectlAvailable = false := by simp [ha]
    rw [kubectlExecute, if_neg hc, if_neg ha']
    simp only [hs, if_true]

/-- Witness for C4 amended: the allowed side at command "get" (executed, argv
is the built argv) and the denied side at command "delete" (denial reason
surfaced, no execution). -/
theorem kubectl_execute_gated_by_security_check_witness :
    ((checkCommandSecurity "get" false).allowed = true ∧
      ["kubectl", "get", "-n", "default"] =
        buildCmdParts none "default" "get" none none none) ∧
    (kubectlExecute none "default" "delete" none none none false true
        (fun _ => ⟨true, 0, "", ""⟩) =
      ({ success := false,
         error := (checkCommandSecurity "delete" false).reason,
         output := "",
         securityCheck := some (checkCommandSecurity "delete" false) }, none)) :=
  ⟨(kubectl_execute_gated_by_security_check none "default" "get" none none none
      false true (fun _ => ⟨true, 0, "", ""⟩)).1
      ["kubectl", "get", "-n", "default"] (by decide),
   (kubectl_execute_gated_by_security_check none "default" "delete" none none none
      false true (fun _ => ⟨true, 0, "", ""⟩)).2
      (by decide) rfl (by decide)⟩

/-! ## Session store (GooseService, goose_service.py) -/

/-- The tool_call_data dict assembled in GooseService.send_message. -/
structure ToolCallData where
  id : String
  name : String
  arguments : List (String × String)
deriving DecidableEq, Repr

/-- The tool_result_data dict assembled in GooseService.send_message. -/
structure ToolResultData where
  id : String
  name : String
  result : String
  success : Bool
  error : Option String
deriving DecidableEq, Repr

/-- ChatMessage (models/chat.py): id, role, content, timestamp and the
optional tool call / tool result lists. Timestamps are abstracted to Nat
seconds. -/
structure ChatMessageData where
  id : String
  role : String
  content : String
  timestamp : Nat
  toolCalls : Option (List ToolCallData) := none
  toolResults : Option (List ToolResultData) := none
deriving DecidableEq, Repr

/-- GooseSessionData (goose_service.py): id, created_at, updated_at, status
and the message list. The underlying goose sub-session handle is abstracted;
whether its close() call succeeds enters as a flag where needed. -/
structure SessionData where
  id : String
  createdAt : Nat
  updatedAt : Nat
  status : String
  messages : List ChatMessageData
deriving DecidableEq, Repr

/-- GooseService.sessions: the dict from session id to session data, as an
association list with (by the service's use of uuid keys) nodup keys. -/
structure ServiceState where
  sessions : List (String × SessionData)
deriving DecidableEq, Repr

/-- dict.get(sid): first (unique) binding of the key. -/
def lookupSession : List (String × SessionData) → String → Option SessionData
  | [], _ => none
  | p :: rest, sid => if p.1 = sid then some p.2 else lookupSession rest sid

/-- del dict[sid]: drop the (unique) binding of the key. -/
def eraseSession : List (String × SessionData) → String → List (String × SessionData)
  | [], _ => []
  | p :: rest, sid => if p.1 = sid then rest else p :: eraseSession rest sid

/-- In-place mutation of the session object stored under a key. -/
def updateSession :
    List (String × SessionData) → String → SessionData → List (String × SessionData)
  | [], _, _ => []
  | p :: rest, sid, v =>
    if p.1 = sid then (p.1, v) :: rest else p :: updateSession rest sid v

/-- GooseService._is_session_expired: now − updated_at > the configured
timeout (settings.goose_session_timeout seconds). -/
def isSessionExpired (timeout now : Nat) (s : SessionData) : Bool :=
  timeout < now - s.updatedAt

/-- GooseService.close_session: unknown id returns false; otherwise the goose
sub-session is closed (closeOk says whether that external call succeeds — on
its exception the entry is kept and false is returned), the entry is removed
and true returned. -/
def closeSession (closeOk : Bool) (st : ServiceState) (sid : String) :
    Bool × ServiceState :=
  match lookupSession st.sessions sid with
  | none => (false, st)
  | some _ =>
    if closeOk then (true, ⟨eraseSession st.sessions sid⟩) else (false, st)

/-- GooseService.get_session: a present but expired session is closed and
reported as none; otherwise the lookup result is returned unchanged. -/
def getSession (timeout now : Nat) (closeOk : Bool) (st : ServiceState)
    (sid : String) : Option SessionData × ServiceState :=
  match lookupSession st.sessions sid with
  | none => (none, st)
  | some s =>
    if isSessionExpired timeout now s then (none, (closeSession closeOk st sid).2)
    else (some s, st)

/-- GooseService.list_sessions: sweep — collect the expired ids, close each,
then return the remaining session values. -/
def listSessions (timeout now : Nat) (closeOk : Bool) (st : ServiceState) :
    List SessionData × ServiceState :=
  let expired :=
    (st.sessions.filter (fun p => isSessionExpired timeout now p.2)).map Prod.fst
  let st1 := expired.foldl (fun acc sid => (closeSession closeOk acc sid).2) st
  (st1.sessions.map Prod.snd, st1)

theorem eraseSession_sublist (l : List (String × SessionData)) (sid : String) :
    List.Sublist (eraseSession l sid) l := by
  induction l with
  | nil => exact List.Sublist.refl _
  | cons p rest ih =>
    rw [eraseSession]
    by_cases h : p.1 = sid
    · rw [if_pos h]
      exact List.sublist_cons_self p rest
    · rw [if_neg h]
      exact ih.cons₂ p

theorem not_mem_keys_eraseSession (l : List (String × SessionData)) (sid : String)
    (hnd : (l.map Prod.fst).Nodup) :
    sid ∉ (eraseSession l sid).map Prod.fst := by
  induction l with
  | nil => simp [eraseSession]
  | cons p rest ih =>
    rw [eraseSession]
    simp only [List.map_cons, List.nodup_cons] at hnd
    by_cases h : p.1 = sid
    · rw [if_pos h]
      exact h ▸ hnd.1
    · rw [if_neg h]
      simp only [List.map_cons, List.mem_cons]
      rintro (rfl | hm)
      · exact h rfl
      · exact ih hnd.2 hm

theorem closeSession_sublist (ok : Bool) (st : ServiceState) (sid : String) :
    List.Sublist (closeSession ok st sid).2.sessions st.sessions := by
  unfold closeSession
  cases h : lookupSession st.sessions sid with
  | none => exact List.Sublist.refl _
  | some s =>
    simp only
    by_cases hok : ok = true
    · rw [if_pos hok]
      exact eraseSession_sublist st.sessions sid
    · rw [if_neg hok]

theorem foldl_closeSession_sublist (ok : Bool) (sids : List String)
    (st : ServiceState) :
    List.Sublist
      (sids.foldl (fun acc sid => (closeSession ok acc sid).2) st).sessions
      st.sessions := by
  induction sids generalizing st with
  | nil => exact List.Sublist.refl _
  | cons x xs ih =>
    simp only [List.foldl_cons]
    exact (ih _).trans (closeSession_sublist ok st x)

theorem not_mem_listSessions_ids (timeout now : Nat) (ok : Bool)
    (st : ServiceState) (sid : String)
    (hkeys : sid ∉ st.sessions.map Prod.fst)
    (hwf : ∀ p ∈ st.sessions, p.2.id = p.1) :
    sid ∉ (listSessions timeout now ok st).1.map SessionData.id := by
  intro hmem
  simp only [listSessions] at hmem
  rcases List.mem_map.mp hmem with ⟨v, hv, hvid⟩
  rcases List.mem_map.mp hv with ⟨p, hp, rfl⟩
  have hsub : List.Sublist
      ((((st.sessions.filter
          (fun p => isSessionExpired timeout now p.2)).map Prod.fst).foldl
          (fun acc sid => (closeSession ok acc sid).2) st).sessions)
      st.sessions :=
    foldl_closeSession_sublist ok _ st
  have hpmem : p ∈ st.sessions := hsub.subset hp
  have hpid : p.2.id = p.1 := hwf p hpmem
  apply hkeys
  have h1 : p.1 = sid := by rw [← hpid]; exact hvid
  rw [← h1]
  exact List.mem_map_of_mem Prod.fst hpmem

/-- C9: a session whose now − updated_at exceeds the configured timeout is
closed by get_session (which returns none), and — the underlying goose close
succeeding and the service map having nodup keys whose entries carry their own
key as id, as the service maintains — a subsequent list_sessions no longer
contains that session id. -/
theorem get_session_expired_closes_and_list_excludes
    (timeout now later : Nat) (st : ServiceState) (sid : String) (s : SessionData)
    (hlook : lookupSession st.sessions sid = some s)
    (hexp : isSessionExpired timeout now s = true)
    (hnd : (st.sessions.map Prod.fst).Nodup)
    (hwf : ∀ p ∈ st.sessions, p.2.id = p.1) :
    (getSession timeout now true st sid).1 = none ∧
    sid ∉
      ((listSessions timeout later true (getSession timeout now true st sid).2).1.map
        SessionData.id) := by
  have hget : getSession timeout now true st sid =
      (none, ⟨eraseSession st.sessions sid⟩) := by
    simp [getSession, closeSession, hlook, hexp]
  refine ⟨by rw [hget], ?_⟩
  rw [hget]
  have hkeys : sid ∉ (eraseSession st.sessions sid).map Prod.fst :=
    not_mem_keys_eraseSession st.sessions sid hnd
  have hwf1 : ∀ p ∈ eraseSession st.sessions sid, p.2.id = p.1 := fun p hp =>
    hwf p ((eraseSession_sublist st.sessions sid).subset hp)
  exact not_mem_listSessions_ids timeout later true ⟨eraseSession st.sessions sid⟩
    sid hkeys hwf1

/-- Witness for C9: one expired session "s1" (updated at 0, now 20, timeout
10); get_session returns none and list_sessions afterwards excludes "s1". -/
theorem get_session_expired_closes_and_list_excludes_witness :
    (lookupSession [("s1", ⟨"s1", 0, 0, "active", []⟩)] "s1" =
        some ⟨"s1", 0, 0, "active", []⟩ ∧
      isSessionExpired 10 20 ⟨"s1", 0, 0, "active", []⟩ = true) ∧
    ((getSession 10 20 true ⟨[("s1", ⟨"s1", 0, 0, "active", []⟩)]⟩ "s1").1 = none ∧
      "s1" ∉
        ((listSessions 10 20 true
            (getSession 10 20 true ⟨[("s1", ⟨"s1", 0, 0, "active", []⟩)]⟩ "s1").2).1.map
          SessionData.id)) :=
  ⟨⟨by decide, by decide⟩,
   get_session_expired_closes_and_list_excludes 10 20 20
     ⟨[("s1", ⟨"s1", 0, 0, "active", []⟩)]⟩ "s1" ⟨"s1", 0, 0, "active", []⟩
     (by decide) (by decide) (by decide) (by decide)⟩

/-! ## Streaming turns (GooseService.send_message, goose_service.py) -/

/-- Deterministic stand-in for the uuid4() call sequence of one send_message
turn: the n-th generated identifier. -/
def uuidStr (n : Nat) : String := "uuid-" ++ toString n

/-- One item of the goose sub-session's event stream as consumed by
send_message: the four recognized event types (an event of any other type is
skipped by the loop, so it is omitted from the model), or an exception raised
while the stream is being consumed. -/
inductive GooseItem where
  | textDelta (content : String)
  | toolCall (toolName : String) (arguments : List (String × String))
  | toolResult (toolName : String) (result : String) (success : Bool)
      (error : Option String)
  | messageComplete
  | exn (msg : String)
deriving DecidableEq, Repr

/-- The events send_message yields: the tagged dicts of goose_service.py
lines 183-277. The unknown-session error dict has no session_id key, the
in-stream error dict does, hence the Option. -/
inductive StreamEvent where
  | sessionStart (sessionId : String)
  | messageDelta (delta : String) (messageId : String) (sessionId : String)
  | toolCallEvt (toolCall : ToolCallData) (sessionId : String)
  | toolResultEvt (toolResult : ToolResultData) (sessionId : String)
  | messageComplete (content : String) (messageId : String) (sessionId : String)
  | errorEvt (error : String) (sessionId : Option String)
deriving DecidableEq, Repr

/-- A terminal event of the streaming protocol: message_complete or error. -/
def isTerminalEvent : StreamEvent → Bool
  | .messageComplete _ _ _ => true
  | .errorEvt _ _ => true
  | _ => false

/-- An error event. -/
def isErrorEvent : StreamEvent → Bool
  | .errorEvt _ _ => true
  | _ => false

/-- A stream item at which the consumption loop stops: the message_complete
event (break) or a raised exception. -/
def isStopItem : GooseItem → Bool
  | .messageComplete => true
  | .exn _ => true
  | _ => false

/-- The event-consumption loop of send_message (lines 206-278): accumulates
the response text and the tool call/result dicts, yields one output event per
recognized input event, appends the assistant message to the session and
stops at message_complete, and turns an exception into a single error event
after which nothing more is yielded. ctr numbers the uuid4() calls of the
loop, content/tcs/trs are the running accumulators, s the session object
being mutated. -/
def streamTurn (sessionId messageId : String) (now : Nat) :
    List GooseItem → Nat → String → List ToolCallData → List ToolResultData →
    SessionData → List StreamEvent × SessionData
  | [], _, _, _, _, s => ([], s)
  | .textDelta c :: rest, ctr, content, tcs, trs, s =>
    let r := streamTurn sessionId messageId now rest ctr (content ++ c) tcs trs s
    (.messageDelta c messageId sessionId :: r.1, r.2)
  | .toolCall name args :: rest, ctr, content, tcs, trs, s =>
    let tc : ToolCallData := ⟨uuidStr ctr, name, args⟩
    let r := streamTurn sessionId messageId now rest (ctr + 1) content
      (tcs ++ [tc]) trs s
    (.toolCallEvt tc sessionId :: r.1, r.2)
  | .toolResult name res success err :: rest, ctr, content, tcs, trs, s =>
    let tr : ToolResultData :=
      ⟨uuidStr ctr, name, res, success, if success then none else err⟩
    let r := streamTurn sessionId messageId now rest (ctr + 1) content tcs
      (trs ++ [tr]) s
    (.toolResultEvt tr sessionId :: r.1, r.2)
  | .messageComplete :: _, _, content, tcs, trs, s =>
    let assistantMessage : ChatMessageData :=
      { id := messageId, role := "assistant", content := content, timestamp := now,
        toolCalls := if tcs = [] then none else some tcs,
        toolResults := if trs = [] then none else some trs }
    ([.messageComplete content messageId sessionId],
     { s with messages := s.messages ++ [assistantMessage], updatedAt := now })
  | .exn msg :: _, _, _, _, _, s =>
    ([.errorEvt msg (some sessionId)], s)

/-- GooseService.send_message: an unknown or expired session yields a single
error event and nothing else; on a live session the user message is appended
to the session (bumping updated_at) before any event is emitted, then
session_start is emitted and the goose stream is consumed by streamTurn. The
mutated session object replaces its map entry. -/
def sendMessage (timeout now : Nat) (closeOk : Bool) (st : ServiceState)
    (sessionId message : String) (inner : List GooseItem) :
    List StreamEvent × ServiceState :=
  match getSession timeout now closeOk st sessionId with
  | (none, st1) =>
    ([.errorEvt ("Session " ++ sessionId ++ " not found or expired") none], st1)
  | (some s, st1) =>
    let userMessage : ChatMessageData :=
      { id := uuidStr 0, role := "user", content := message, timestamp := now }
    let s1 := { s with messages := s.messages ++ [userMessage], updatedAt := now }
    let messageId := uuidStr 1
    let r := streamTurn sessionId messageId now inner 2 "" [] [] s1
    (.sessionStart sessionId :: r.1,
     ⟨updateSession st1.sessions sessionId r.2⟩)

theorem lookup_updateSession_self (l : List (String × SessionData))
    (sid : String) (v s : SessionData)
    (h : lookupSession l sid = some s) :
    lookupSession (updateSession l sid v) sid = some v := by
  induction l with
  | nil => simp [lookupSession] at h
  | cons p rest ih =>
    rw [lookupSession] at h
    rw [updateSession]
    by_cases hp : p.1 = sid
    · rw [if_pos hp, lookupSession, if_pos hp]
    · rw [if_neg hp, lookupSession, if_neg hp]
      exact ih (by rwa [if_neg hp] at h)

/-- A session_start event. -/
def isSessionStartEvent : StreamEvent → Bool
  | .sessionStart _ => true
  | _ => false

theorem noEarly_cons (x : StreamEvent) (evs : List StreamEvent)
    (hx : isTerminalEvent x = false)
    (h : ∀ e ∈ evs.dropLast, isTerminalEvent e = false) :
    ∀ e ∈ (x :: evs).dropLast, isTerminalEvent e = false := by
  intro e he
  cases evs with
  | nil => simp at he
  | cons y l =>
    rw [List.dropLast_cons₂] at he
    rcases List.mem_cons.mp he with rfl | hm
    · exact hx
    · exact h e hm

theorem streamTurn_no_early_terminal (sessionId messageId : String) (now : Nat)
    (inner : List GooseItem) :
    ∀ ctr content tcs trs s,
      ∀ e ∈ (streamTurn sessionId messageId now inner ctr content tcs trs s).1.dropLast,
        isTerminalEvent e = false := by
  induction inner with
  | nil =>
    intro ctr content tcs trs s e he
    simp [streamTurn] at he
  | cons it rest ih =>
    intro ctr content tcs trs s
    cases it with
    | textDelta c =>
      simp only [streamTurn]
      exact noEarly_cons _ _ rfl (ih ctr (content ++ c) tcs trs s)
    | toolCall name args =>
      simp only [streamTurn]
      exact noEarly_cons _ _ rfl (ih (ctr + 1) content _ trs s)
    | toolResult name res success err =>
      simp only [streamTurn]
      exact noEarly_cons _ _ rfl (ih (ctr + 1) content tcs _ s)
    | messageComplete =>
      intro e he
      simp [streamTurn] at he
    | exn m =>
      intro e he
      simp [streamTurn] at he

theorem streamTurn_stop_gives_one_terminal (sessionId messageId : String)
    (now : Nat) (inner : List GooseItem) :
    ∀ ctr content tcs trs s, inner.any isStopItem = true →
      (streamTurn sessionId messageId now inner ctr content tcs trs s).1.countP
        isTerminalEvent = 1 := by
  induction inner with
  | nil =>
    intro ctr content tcs trs s hstop
    simp at hstop
  | cons it rest ih =>
    intro ctr content tcs trs s hstop
    cases it with
    | textDelta c =>
      have h' : rest.any isStopItem = true := by
        simpa [isStopItem] using hstop
      simp only [streamTurn]
      rw [List.countP_cons_of_neg]
      · exact ih ctr (content ++ c) tcs trs s h'
      · simp [isTerminalEvent]
    | toolCall name args =>
      have h' : rest.any isStopItem = true := by
        simpa [isStopItem] using hstop
      simp only [streamTurn]
      rw [List.countP_cons_of_neg]
      · exact ih (ctr + 1) content _ trs s h'
      · simp [isTerminalEvent]
    | toolResult name res success err =>
      have h' : rest.any isStopItem = true := by
        simpa [isStopItem] using hstop
      simp only [streamTurn]
      rw [List.countP_cons_of_neg]
      · exact ih (ctr + 1) content tcs _ s h'
      · simp [isTerminalEvent]
    | messageComplete =>
      simp [streamTurn, List.countP_cons, isTerminalEvent]
    | exn m =>
      simp [streamTurn, List.countP_cons, isTerminalEvent]

/-- The events the consumption loop yields for a stop-free prefix of the
stream: one per item, with the uuid counter advanced as in the loop. -/
def nonStopEvents (sessionId messageId : String) :
    List GooseItem → Nat → List StreamEvent
  | [], _ => []
  | .textDelta c :: rest, ctr =>
    .messageDelta c messageId sessionId ::
      nonStopEvents sessionId messageId rest ctr
  | .toolCall name args :: rest, ctr =>
    .toolCallEvt ⟨uuidStr ctr, name, args⟩ sessionId ::
      nonStopEvents sessionId messageId rest (ctr + 1)
  | .toolResult name res success err :: rest, ctr =>
    .toolResultEvt ⟨uuidStr ctr, name, res, success, if success then none else err⟩
        sessionId ::
      nonStopEvents sessionId messageId rest (ctr + 1)
  | .messageComplete :: _, _ => []
  | .exn _ :: _, _ => []

theorem nonStopEvents_not_error (sessionId messageId : String)
    (pre : List GooseItem) :
    ∀ ctr, ∀ e ∈ nonStopEvents sessionId messageId pre ctr,
      isErrorEvent e = false := by
  induction pre with
  | nil =>
    intro ctr e he
    simp [nonStopEvents] at he
  | cons it rest ih =>
    intro ctr e he
    cases it with
    | textDelta c =>
      rw [nonStopEvents] at he
      rcases List.mem_cons.mp he with rfl | hm
      · rfl
      · exact ih ctr e hm
    | toolCall name args =>
      rw [nonStopEvents] at he
      rcases List.mem_cons.mp he with rfl | hm
      · rfl
      · exact ih (ctr + 1) e hm
    | toolResult name res success err =>
      rw [nonStopEvents] at he
      rcases List.mem_cons.mp he with rfl | hm
      · rfl
      · exact ih (ctr + 1) e hm
    | messageComplete => simp [nonStopEvents] at he
    | exn m => simp [nonStopEvents] at he

theorem streamTurn_error_shape (sessionId messageId : String) (now : Nat)
    (msg : String) (rest : List GooseItem) (pre : List GooseItem) :
    ∀ ctr content tcs trs s, pre.any isStopItem = false →
      streamTurn sessionId messageId now (pre ++ GooseItem.exn msg :: rest)
          ctr content tcs trs s =
        (nonStopEvents sessionId messageId pre ctr ++
          [.errorEvt msg (some sessionId)], s) := by
  induction pre with
  | nil =>
    intro ctr content tcs trs s _
    simp [streamTurn, nonStopEvents]
  | cons it pre ih =>
    intro ctr content tcs trs s hstop
    cases it with
    | textDelta c =>
      have h' : pre.any isStopItem = false := by
        simpa [isStopItem] using hstop
      simp only [List.cons_append, streamTurn, nonStopEvents]
      rw [show pre.append (GooseItem.exn msg :: rest) =
            pre ++ GooseItem.exn msg :: rest from rfl,
        ih ctr (content ++ c) tcs trs s h']
    | toolCall name args =>
      have h' : pre.any isStopItem = false := by
        simpa [isStopItem] using hstop
      simp only [List.cons_append, streamTurn, nonStopEvents]
      rw [show pre.append (GooseItem.exn msg :: rest) =
            pre ++ GooseItem.exn msg :: rest from rfl,
        ih (ctr + 1) content _ trs s h']
    | toolResult name res success err =>
      have h' : pre.any isStopItem = false := by
        simpa [isStopItem] using hstop
      simp only [List.cons_append, streamTurn, nonStopEvents]
      rw [show pre.append (GooseItem.exn msg :: rest) =
            pre ++ GooseItem.exn msg :: rest from rfl,
        ih (ctr + 1) content tcs _ s h']
    | messageComplete => simp [isStopItem] at hstop
    | exn m => simp [isStopItem] at hstop

/-- C5 counterexample: send_message called with a session_id naming no live
session (here: an empty session map) emits a single error event — no session
is created (the service state is unchanged and empty) and no session_start
event is ever emitted. The claimed create-then-SessionStart behavior lives in
the websocket endpoint, not in GooseService.send_message. -/
theorem send_message_unknown_session_no_creation :
    sendMessage 3600 0 true ⟨[]⟩ "s1" "hello" [] =
      ([.errorEvt "Session s1 not found or expired" none], ⟨[]⟩) ∧
    (sendMessage 3600 0 true ⟨[]⟩ "s1" "hello" []).1.countP
      isSessionStartEvent = 0 :=
  ⟨rfl, rfl⟩

/-- C5 amended: send_message never creates a session. When session_id names
no live session it emits exactly the single not-found error event and leaves
the service state as get_session left it; when session_id names a live
session, the first event of the turn is session_start. -/
theorem send_message_session_start_or_error
    (timeout now : Nat) (closeOk : Bool) (st : ServiceState)
    (sessionId message : String) (inner : List GooseItem) :
    ((getSession timeout now closeOk st sessionId).1 = none →
      sendMessage timeout now closeOk st sessionId message inner =
        ([.errorEvt ("Session " ++ sessionId ++ " not found or expired") none],
         (getSession timeout now closeOk st sessionId).2)) ∧
    (∀ s, (getSession timeout now closeOk st sessionId).1 = some s →
      (sendMessage timeout now closeOk st sessionId message inner).1.head? =
        some (.sessionStart sessionId)) := by
  cases hg : getSession timeout now closeOk st sessionId with
  | mk o st1 =>
    cases o with
    | none =>
      refine ⟨fun _ => ?_, fun s hs => ?_⟩
      · simp only [sendMessage, hg]
      · simp at hs
    | some s0 =>
      refine ⟨fun h => ?_, fun s hs => ?_⟩
      · simp at h
      · simp only [sendMessage, hg, List.head?]

/-- Witness for C5 amended: the dead-session side on an empty map and the
live-session side on a one-session map. -/
theorem send_message_session_start_or_error_witness :
    ((getSession 3600 0 true ⟨[]⟩ "s1").1 = none ∧
      sendMessage 3600 0 true ⟨[]⟩ "s1" "hi" [] =
        ([.errorEvt ("Session " ++ "s1" ++ " not found or expired") none],
         (getSession 3600 0 true ⟨[]⟩ "s1").2)) ∧
    ((getSession 10 5 true ⟨[("s2", ⟨"s2", 0, 0, "active", []⟩)]⟩ "s2").1 =
        some ⟨"s2", 0, 0, "active", []⟩ ∧
      (sendMessage 10 5 true ⟨[("s2", ⟨"s2", 0, 0, "active", []⟩)]⟩ "s2" "hi"
          [GooseItem.messageComplete]).1.head? =
        some (.sessionStart "s2")) :=
  ⟨⟨by decide,
    (send_message_session_start_or_error 3600 0 true ⟨[]⟩ "s1" "hi" []).1
      (by decide)⟩,
   ⟨by decide,
    (send_message_session_start_or_error 10 5 true
        ⟨[("s2", ⟨"s2", 0, 0, "active", []⟩)]⟩ "s2" "hi"
        [GooseItem.messageComplete]).2
      ⟨"s2", 0, 0, "active", []⟩ (by decide)⟩⟩

/-- C6 counterexample: a turn on a live session whose inner goose stream ends
without a message_complete event (here: the empty stream) produces the event
sequence [session_start] — it contains no terminal event at all, refuting
"exactly one terminal event, never neither". -/
theorem send_message_no_terminal_on_exhausted_stream :
    (sendMessage 10 5 true ⟨[("s1", ⟨"s1", 0, 0, "active", []⟩)]⟩ "s1" "hi"
        []).1 = [.sessionStart "s1"] ∧
    (sendMessage 10 5 true ⟨[("s1", ⟨"s1", 0, 0, "active", []⟩)]⟩ "s1" "hi"
        []).1.countP isTerminalEvent = 0 :=
  ⟨rfl, rfl⟩

/-- C6 amended: every turn's event sequence has at most one terminal event
and no event of any kind after a terminal event (no event before the last is
terminal); it has exactly one terminal event whenever the session lookup
fails (the single error event) or the inner stream reaches a message_complete
or raises (so "never neither" holds except for an inner stream that is
exhausted without either, which ends the turn with no terminal event). -/
theorem send_message_terminal_event_discipline
    (timeout now : Nat) (closeOk : Bool) (st : ServiceState)
    (sessionId message : String) (inner : List GooseItem) :
    (∀ e ∈ (sendMessage timeout now closeOk st sessionId message
        inner).1.dropLast, isTerminalEvent e = false) ∧
    (((getSession timeout now closeOk st sessionId).1 = none ∨
        inner.any isStopItem = true) →
      (sendMessage timeout now closeOk st sessionId message inner).1.countP
        isTerminalEvent = 1) := by
  cases hg : getSession timeout now closeOk st sessionId with
  | mk o st1 =>
    cases o with
    | none =>
      constructor
      · intro e he
        simp only [sendMessage, hg] at he
        simp at he
      · intro _
        simp only [sendMessage, hg]
        rw [List.countP_cons_of_pos]
        · rfl
        · rfl
    | some s0 =>
      constructor
      · simp only [sendMessage, hg]
        exact noEarly_cons _ _ rfl
          (streamTurn_no_early_terminal sessionId (uuidStr 1) now inner 2 "" [] [] _)
      · intro hd
        rcases hd with hd | hd
        · simp at hd
        · simp only [sendMessage, hg]
          rw [List.countP_cons_of_neg]
          · exact streamTurn_stop_gives_one_terminal sessionId (uuidStr 1) now
              inner 2 "" [] [] _ hd
          · simp [isTerminalEvent]

/-- Witness for C6 amended, on a live session with inner stream
[text_delta, message_complete]: the session_start event (an element of the
sequence's dropLast) is not terminal, and the terminal-event count is one. -/
theorem send_message_terminal_event_discipline_witness :
    (StreamEvent.sessionStart "s1" ∈
      (sendMessage 10 5 true ⟨[("s1", ⟨"s1", 0, 0, "active", []⟩)]⟩ "s1" "hi"
          [GooseItem.textDelta "a", GooseItem.messageComplete]).1.dropLast ∧
      isTerminalEvent (StreamEvent.sessionStart "s1") = false) ∧
    ([GooseItem.textDelta "a", GooseItem.messageComplete].any isStopItem = true ∧
      (sendMessage 10 5 true ⟨[("s1", ⟨"s1", 0, 0, "active", []⟩)]⟩ "s1" "hi"
          [GooseItem.textDelta "a", GooseItem.messageComplete]).1.countP
        isTerminalEvent = 1) :=
  ⟨⟨by decide,
    (send_message_terminal_event_discipline 10 5 true
        ⟨[("s1", ⟨"s1", 0, 0, "active", []⟩)]⟩ "s1" "hi"
        [GooseItem.textDelta "a", GooseItem.messageComplete]).1
      (StreamEvent.sessionStart "s1") (by decide)⟩,
   ⟨by decide,
    (send_message_terminal_event_discipline 10 5 true
        ⟨[("s1", ⟨"s1", 0, 0, "active", []⟩)]⟩ "s1" "hi"
        [GooseItem.textDelta "a", GooseItem.messageComplete]).2
      (Or.inr (by decide))⟩⟩

/-- C7: a turn on an existing live session whose stream raises before any
message_complete yields exactly one error event, the error event is the last
event of the sequence, and the session afterwards holds exactly its pre-turn
messages plus the appended user message — the partially accumulated assistant
text is never appended. -/
theorem send_message_error_turn_single_error_user_only
    (timeout now : Nat) (closeOk : Bool) (st : ServiceState)
    (sessionId message msg : String) (pre rest : List GooseItem)
    (s : SessionData)
    (hlook : lookupSession st.sessions sessionId = some s)
    (hexp : isSessionExpired timeout now s = false)
    (hpre : pre.any isStopItem = false) :
    (sendMessage timeout now closeOk st sessionId message
        (pre ++ GooseItem.exn msg :: rest)).1.countP isErrorEvent = 1 ∧
    (sendMessage timeout now closeOk st sessionId message
        (pre ++ GooseItem.exn msg :: rest)).1.getLast? =
      some (.errorEvt msg (some sessionId)) ∧
    lookupSession (sendMessage timeout now closeOk st sessionId message
        (pre ++ GooseItem.exn msg :: rest)).2.sessions sessionId =
      some { s with
        messages := s.messages ++
          [{ id := uuidStr 0, role := "user", content := message,
             timestamp := now }],
        updatedAt := now } := by
  have hget : getSession timeout now closeOk st sessionId = (some s, st) := by
    simp [getSession, hlook, hexp]
  have hshape := streamTurn_error_shape sessionId (uuidStr 1) now msg rest pre
    2 "" [] []
    { s with
      messages := s.messages ++
        [{ id := uuidStr 0, role := "user", content := message,
           timestamp := now }],
      updatedAt := now } hpre
  have hsm : sendMessage timeout now closeOk st sessionId message
      (pre ++ GooseItem.exn msg :: rest) =
      (StreamEvent.sessionStart sessionId ::
        (nonStopEvents sessionId (uuidStr 1) pre 2 ++
          [.errorEvt msg (some sessionId)]),
       ⟨updateSession st.sessions sessionId
         { s with
           messages := s.messages ++
             [{ id := uuidStr 0, role := "user", content := message,
                timestamp := now }],
           updatedAt := now }⟩) := by
    simp only [sendMessage, hget]
    rw [hshape]
  rw [hsm]
  refine ⟨?_, ?_, ?_⟩
  · rw [List.countP_cons_of_neg]
    · rw [List.countP_append]
      have h0 : (nonStopEvents sessionId (uuidStr 1) pre 2).countP
          isErrorEvent = 0 := by
        rw [List.countP_eq_zero]
        intro e he
        simp [nonStopEvents_not_error sessionId (uuidStr 1) pre 2 e he]
      rw [h0]
      rw [List.countP_cons_of_pos]
      · rfl
      · rfl
    · simp [isErrorEvent]
  · rw [show StreamEvent.sessionStart sessionId ::
        (nonStopEvents sessionId (uuidStr 1) pre 2 ++
          [StreamEvent.errorEvt msg (some sessionId)]) =
        (StreamEvent.sessionStart sessionId ::
          nonStopEvents sessionId (uuidStr 1) pre 2) ++
          [StreamEvent.errorEvt msg (some sessionId)] from by
      simp]
    exact List.getLast?_concat _
  · exact lookup_updateSession_self st.sessions sessionId _ s hlook

/-- Witness for C7: one live session "s1", stream [text_delta "a", exception
"boom"]: one error event, it is last, and the session holds only the user
message afterwards. -/
theorem send_message_error_turn_single_error_user_only_witness :
    (lookupSession [("s1", ⟨"s1", 0, 0, "active", []⟩)] "s1" =
        some ⟨"s1", 0, 0, "active", []⟩ ∧
      isSessionExpired 10 5 ⟨"s1", 0, 0, "active", []⟩ = false ∧
      [GooseItem.textDelta "a"].any isStopItem = false) ∧
    ((sendMessage 10 5 true ⟨[("s1", ⟨"s1", 0, 0, "active", []⟩)]⟩ "s1" "hi"
        ([GooseItem.textDelta "a"] ++ GooseItem.exn "boom" :: [])).1.countP
      isErrorEvent = 1 ∧
    (sendMessage 10 5 true ⟨[("s1", ⟨"s1", 0, 0, "active", []⟩)]⟩ "s1" "hi"
        ([GooseItem.textDelta "a"] ++ GooseItem.exn "boom" :: [])).1.getLast? =
      some (.errorEvt "boom" (some "s1")) ∧
    lookupSession (sendMessage 10 5 true
        ⟨[("s1", ⟨"s1", 0, 0, "active", []⟩)]⟩ "s1" "hi"
        ([GooseItem.textDelta "a"] ++ GooseItem.exn "boom" :: [])).2.sessions
      "s1" =
      some ⟨"s1", 0, 5, "active",
        [{ id := uuidStr 0, role := "user", content := "hi",
           timestamp := 5 }]⟩) :=
  ⟨⟨by decide, by decide, by decide⟩,
   send_message_error_turn_single_error_user_only 10 5 true
     ⟨[("s1", ⟨"s1", 0, 0, "active", []⟩)]⟩ "s1" "hi" "boom"
     [GooseItem.textDelta "a"] [] ⟨"s1", 0, 0, "active", []⟩
     (by decide) (by decide) (by decide)⟩

/-! ## Durable chat workflow (ChatWorkflow.run, workflows.py) -/

/-- The outcome of one activity execution as the workflow awaits it: its
return value, or the exception (including timeout) the await raises. -/
inductive ActOutcome (α : Type) where
  | ok (a : α)
  | err (msg : String)
deriving DecidableEq, Repr

/-- The fields of the analyze_user_intent result dict that ChatWorkflow.run
reads: requires_k8s and suggested_tools. -/
structure IntentAnalysis where
  requiresK8s : Bool
  suggestedTools : List String
deriving DecidableEq, Repr

/-- A message dict of the conversation history and of the enhanced message
list built by _enhance_messages_with_k8s_context. -/
structure MsgDict where
  id : String
  role : String
  content : String
  timestamp : String
deriving DecidableEq, Repr

/-- The response_data dict ChatWorkflow.run returns. The k8s_tool_results
key is created only when a first successful tool result is stored, hence the
Option. -/
structure TurnResult where
  conversationId : String
  intentAnalysis : IntentAnalysis
  k8sData : Option String := none
  k8sToolResults : Option (List (String × String)) := none
  response : Option String := none
  error : Option String := none
deriving DecidableEq, Repr

/-- dict[key] = value on an association list. -/
def setEntry : List (String × String) → String → String → List (String × String)
  | [], k, v => [(k, v)]
  | p :: rest, k, v =>
    if p.1 = k then (p.1, v) :: rest else p :: setEntry rest k v

/-- ChatWorkflow._enhance_messages_with_k8s_context: copies the history,
appends the current user message, and when any K8s context exists inserts one
system context message right before it (messages.insert(-1, ...)); the id
counters are the list lengths at the time of each construction and
workflow.now().isoformat() enters as nowIso. -/
def enhanceMessagesWithK8sContext (conversationHistory : List MsgDict)
    (userMessage : String) (k8sData : Option String)
    (k8sToolResults : Option (List (String × String))) (nowIso : String) :
    List MsgDict :=
  let userMsg : MsgDict :=
    { id := "user-" ++ toString conversationHistory.length,
      role := "user", content := userMessage, timestamp := nowIso }
  if k8sData.isSome ∨ k8sToolResults.isSome then
    let contextContent := "Current Kubernetes cluster context:\n\n" ++
      (match k8sData with
       | some d => "Cluster Status: " ++ d ++ "\n\n"
       | none => "") ++
      (match k8sToolResults with
       | some trs => "Tool Results:\n" ++
           trs.foldl (fun acc p => acc ++ "- " ++ p.1 ++ ": " ++ p.2 ++ "\n")
             "" ++ "\n"
       | none => "")
    conversationHistory ++
      [{ id := "system-context-" ++ toString (conversationHistory.length + 1),
         role := "system", content := contextContent, timestamp := nowIso },
       userMsg]
  else
    conversationHistory ++ [userMsg]

/-- The workflow's except branch (lines 95-98): error is set and response
becomes the user-facing explanation, on the partially filled response_data. -/
def applyWorkflowCatch (rd : TurnResult) (m : String) : TurnResult :=
  { rd with
    error := some m
    response :=
      some ("I encountered an error while processing your request: " ++ m) }

/-- The per-tool loop (lines 63-76): each tool's activity failure is caught
and only logged — the failing tool leaves response_data untouched — while a
success stores the result under the tool's name, creating the
k8s_tool_results key on first use. -/
def runToolLoop (toolRun : String → ActOutcome String) (tools : List String)
    (rd : TurnResult) : TurnResult :=
  tools.foldl (fun rd tool =>
    match toolRun tool with
    | .ok r =>
      { rd with
        k8sToolResults := some (setEntry (rd.k8sToolResults.getD []) tool r) }
    | .err _ => rd) rd

/-- Step 3 of the try block: response synthesis over the enhanced messages;
its failure falls to the outer except. -/
def chatWorkflowSynthesis (conversationHistory : List MsgDict)
    (userMessage nowIso : String) (claude : List MsgDict → ActOutcome String)
    (rd : TurnResult) : TurnResult :=
  match claude (enhanceMessagesWithK8sContext conversationHistory userMessage
      rd.k8sData rd.k8sToolResults nowIso) with
  | .ok resp => { rd with response := some resp }
  | .err m => applyWorkflowCatch rd m

/-- The try/except body of ChatWorkflow.run after intent analysis: optional
cluster snapshot (whose failure is caught by the outer except), the per-tool
loop, then synthesis. It always produces a TurnResult. -/
def chatWorkflowBody (userMessage : String)
    (conversationHistory : List MsgDict) (conversationId nowIso : String)
    (ia : IntentAnalysis) (clusterStatus : ActOutcome String)
    (toolRun : String → ActOutcome String)
    (claude : List MsgDict → ActOutcome String) : TurnResult :=
  let rd0 : TurnResult :=
    { conversationId := conversationId, intentAnalysis := ia }
  if ia.requiresK8s then
    match clusterStatus with
    | .err m => applyWorkflowCatch rd0 m
    | .ok cs =>
      chatWorkflowSynthesis conversationHistory userMessage nowIso claude
        (runToolLoop toolRun ia.suggestedTools { rd0 with k8sData := some cs })
  else
    chatWorkflowSynthesis conversationHistory userMessage nowIso claude rd0

/-- ChatWorkflow.run: intent analysis runs outside the try block, so its
failure propagates out of the workflow (Except.error); everything after it is
guarded and returns a TurnResult. -/
def chatWorkflowRun (userMessage : String)
    (conversationHistory : List MsgDict) (conversationId nowIso : String)
    (intentOutcome : ActOutcome IntentAnalysis)
    (clusterStatus : ActOutcome String)
    (toolRun : String → ActOutcome String)
    (claude : List MsgDict → ActOutcome String) : Except String TurnResult :=
  match intentOutcome with
  | .err m => .error m
  | .ok ia =>
    .ok (chatWorkflowBody userMessage conversationHistory conversationId
      nowIso ia clusterStatus toolRun claude)

/-- C8 counterexample: when the single suggested tool's activity raises, the
inner per-tool except swallows the failure; synthesis then succeeds and the
workflow returns a TurnResult with error = none and a normal response — not
an error-populated result as the claim requires for a tool-execution
failure. -/
theorem chat_workflow_tool_failure_error_not_populated :
    chatWorkflowRun "list pods" [] "c1" "t0"
      (.ok ⟨true, ["get_pods"]⟩) (.ok "cluster-ok")
      (fun _ => .err "tool exploded") (fun _ => .ok "answer") =
    .ok { conversationId := "c1", intentAnalysis := ⟨true, ["get_pods"]⟩,
          k8sData := some "cluster-ok", k8sToolResults := none,
          response := some "answer", error := none } := by
  rfl

/-- One step of the per-tool loop. -/
theorem runToolLoop_cons (toolRun : String → ActOutcome String) (t : String)
    (ts : List String) (rd : TurnResult) :
    runToolLoop toolRun (t :: ts) rd =
      runToolLoop toolRun ts
        (match toolRun t with
         | .ok r =>
           { rd with
             k8sToolResults := some (setEntry (rd.k8sToolResults.getD []) t r) }
         | .err _ => rd) := by
  simp only [runToolLoop, List.foldl_cons]

/-- The per-tool loop never touches the error field. -/
theorem runToolLoop_error_eq (toolRun : String → ActOutcome String)
    (tools : List String) : ∀ rd : TurnResult,
    (runToolLoop toolRun tools rd).error = rd.error := by
  induction tools with
  | nil => intro rd; rfl
  | cons t ts ih =>
    intro rd
    rw [runToolLoop_cons]
    cases ht : toolRun t with
    | ok r => exact ih _
    | err m => exact ih _

/-- A key of dict[key] = value came from the dict or is the assigned key. -/
theorem mem_keys_setEntry (l : List (String × String)) (k v a : String)
    (h : a ∈ (setEntry l k v).map Prod.fst) :
    a ∈ l.map Prod.fst ∨ a = k := by
  induction l with
  | nil =>
    simp [setEntry] at h
    exact Or.inr h
  | cons p rest ih =>
    rw [setEntry] at h
    by_cases hp : p.1 = k
    · rw [if_pos hp] at h
      simp only [List.map_cons, List.mem_cons] at h ⊢
      rcases h with rfl | h
      · exact Or.inl (Or.inl rfl)
      · exact Or.inl (Or.inr h)
    · rw [if_neg hp] at h
      simp only [List.map_cons, List.mem_cons] at h ⊢
      rcases h with rfl | h
      · exact Or.inl (Or.inl rfl)
      · rcases ih h with h1 | h1
        · exact Or.inl (Or.inr h1)
        · exact Or.inr h1

/-- A tool whose activity raises is never added to k8s_tool_results by the
per-tool loop. -/
theorem runToolLoop_failed_absent (toolRun : String → ActOutcome String)
    (tool m : String) (hfail : toolRun tool = .err m) :
    ∀ (tools : List String) (rd : TurnResult),
      tool ∉ (rd.k8sToolResults.getD []).map Prod.fst →
      tool ∉
        ((runToolLoop toolRun tools rd).k8sToolResults.getD []).map Prod.fst := by
  intro tools
  induction tools with
  | nil => intro rd h; exact h
  | cons t ts ih =>
    intro rd h
    rw [runToolLoop_cons]
    cases ht : toolRun t with
    | ok r =>
      refine ih _ ?_
      intro hmem
      rcases mem_keys_setEntry (rd.k8sToolResults.getD []) t r tool hmem with
        h1 | h1
      · exact h h1
      · subst h1
        rw [ht] at hfail
        simp at hfail
    | err m2 => exact ih rd h

/-- A failing synthesis call lands in the outer except on whatever
response_data has accumulated. -/
theorem chatWorkflowSynthesis_err (conversationHistory : List MsgDict)
    (userMessage nowIso : String) (claude : List MsgDict → ActOutcome String)
    (rd : TurnResult) (m : String)
    (h : claude (enhanceMessagesWithK8sContext conversationHistory userMessage
      rd.k8sData rd.k8sToolResults nowIso) = .err m) :
    chatWorkflowSynthesis conversationHistory userMessage nowIso claude rd =
      applyWorkflowCatch rd m := by
  rw [chatWorkflowSynthesis, h]

/-- A successful synthesis call only fills the response field. -/
theorem chatWorkflowSynthesis_ok (conversationHistory : List MsgDict)
    (userMessage nowIso : String) (claude : List MsgDict → ActOutcome String)
    (rd : TurnResult) (resp : String)
    (h : claude (enhanceMessagesWithK8sContext conversationHistory userMessage
      rd.k8sData rd.k8sToolResults nowIso) = .ok resp) :
    chatWorkflowSynthesis conversationHistory userMessage nowIso claude rd =
      { rd with response := some resp } := by
  rw [chatWorkflowSynthesis, h]

/-- C8 amended: after a successful IntentAnalysis the workflow always
returns a terminal TurnResult, never a propagated fault; a context-gathering
failure, or a response-synthesis failure on either path (with or without
tooling), populates error with the failure and sets response to the
user-facing explanation string; a tool-execution failure is instead swallowed
per-operation — the failing tool is absent from k8s_tool_results and, when
synthesis then succeeds, error stays unset. -/
theorem chat_workflow_terminal_result_on_step_failure
    (userMessage : String) (conversationHistory : List MsgDict)
    (conversationId nowIso : String) (ia : IntentAnalysis)
    (clusterStatus : ActOutcome String)
    (toolRun : String → ActOutcome String)
    (claude : List MsgDict → ActOutcome String) :
    (∃ tr, chatWorkflowRun userMessage conversationHistory conversationId
      nowIso (.ok ia) clusterStatus toolRun claude = .ok tr) ∧
    (∀ m, ia.requiresK8s = true → clusterStatus = .err m →
      chatWorkflowRun userMessage conversationHistory conversationId nowIso
          (.ok ia) clusterStatus toolRun claude =
        .ok { conversationId := conversationId, intentAnalysis := ia,
              error := some m,
              response := some
                ("I encountered an error while processing your request: " ++ m) }) ∧
    (∀ m, ia.requiresK8s = false →
      claude (enhanceMessagesWithK8sContext conversationHistory userMessage
        none none nowIso) = .err m →
      chatWorkflowRun userMessage conversationHistory conversationId nowIso
          (.ok ia) clusterStatus toolRun claude =
        .ok { conversationId := conversationId, intentAnalysis := ia,
              error := some m,
              response := some
                ("I encountered an error while processing your request: " ++ m) }) ∧
    (∀ m cs, ia.requiresK8s = true → clusterStatus = .ok cs →
      claude (enhanceMessagesWithK8sContext conversationHistory userMessage
        (runToolLoop toolRun ia.suggestedTools
          { conversationId := conversationId, intentAnalysis := ia,
            k8sData := some cs }).k8sData
        (runToolLoop toolRun ia.suggestedTools
          { conversationId := conversationId, intentAnalysis := ia,
            k8sData := some cs }).k8sToolResults nowIso) = .err m →
      ∃ tr, chatWorkflowRun userMessage conversationHistory conversationId
          nowIso (.ok ia) clusterStatus toolRun claude = .ok tr ∧
        tr.error = some m ∧
        tr.response = some
          ("I encountered an error while processing your request: " ++ m)) ∧
    (∀ cs tool m, toolRun tool = .err m →
      tool ∉
        ((runToolLoop toolRun ia.suggestedTools
          { conversationId := conversationId, intentAnalysis := ia,
            k8sData := some cs }).k8sToolResults.getD []).map Prod.fst) ∧
    (∀ cs resp, ia.requiresK8s = true → clusterStatus = .ok cs →
      claude (enhanceMessagesWithK8sContext conversationHistory userMessage
        (runToolLoop toolRun ia.suggestedTools
          { conversationId := conversationId, intentAnalysis := ia,
            k8sData := some cs }).k8sData
        (runToolLoop toolRun ia.suggestedTools
          { conversationId := conversationId, intentAnalysis := ia,
            k8sData := some cs }).k8sToolResults nowIso) = .ok resp →
      ∃ tr, chatWorkflowRun userMessage conversationHistory conversationId
          nowIso (.ok ia) clusterStatus toolRun claude = .ok tr ∧
        tr.error = none ∧ tr.response = some resp) := by
  refine ⟨⟨_, rfl⟩, ?_, ?_, ?_, ?_, ?_⟩
  · intro m hreq hcs
    simp only [chatWorkflowRun, chatWorkflowBody, hreq, hcs, if_true]
    rfl
  · intro m hreq hcl
    simp only [chatWorkflowRun, chatWorkflowBody, hreq, Bool.false_eq_true,
      if_false, chatWorkflowSynthesis]
    rw [hcl]
    rfl
  · intro m cs hreq hcs hcl
    refine ⟨applyWorkflowCatch
      (runToolLoop toolRun ia.suggestedTools
        { conversationId := conversationId, intentAnalysis := ia,
          k8sData := some cs }) m, ?_, rfl, rfl⟩
    simp only [chatWorkflowRun, chatWorkflowBody, hreq, hcs, if_true]
    exact congrArg Except.ok
      (chatWorkflowSynthesis_err conversationHistory userMessage nowIso claude
        _ m hcl)
  · intro cs tool m hfail
    exact runToolLoop_failed_absent toolRun tool m hfail ia.suggestedTools
      { conversationId := conversationId, intentAnalysis := ia,
        k8sData := some cs } (by simp)
  · intro cs resp hreq hcs hcl
    refine ⟨{ runToolLoop toolRun ia.suggestedTools
        { conversationId := conversationId, intentAnalysis := ia,
          k8sData := some cs } with response := some resp }, ?_, ?_, rfl⟩
    · simp only [chatWorkflowRun, chatWorkflowBody, hreq, hcs, if_true]
      exact congrArg Except.ok
        (chatWorkflowSynthesis_ok conversationHistory userMessage nowIso claude
          _ resp hcl)
    · exact runToolLoop_error_eq toolRun ia.suggestedTools _

/-- Witness for C8 amended: the terminal-result and cluster-snapshot-failure
parts, a synthesis failure without tooling, a synthesis failure on the
tooling path, the failing tool absent from k8s_tool_results, and a turn where
the tool fails but synthesis succeeds with error unset. -/
theorem chat_workflow_terminal_result_on_step_failure_witness :
    (∃ tr, chatWorkflowRun "hi" [] "c1" "t0" (.ok ⟨true, []⟩)
      (.err "cluster down") (fun _ => .ok "r") (fun _ => .ok "a") = .ok tr) ∧
    (chatWorkflowRun "hi" [] "c1" "t0" (.ok ⟨true, []⟩) (.err "cluster down")
        (fun _ => .ok "r") (fun _ => .ok "a") =
      .ok { conversationId := "c1", intentAnalysis := ⟨true, []⟩,
            error := some "cluster down",
            response := some
              ("I encountered an error while processing your request: " ++
                "cluster down") }) ∧
    (chatWorkflowRun "hi" [] "c2" "t0" (.ok ⟨false, []⟩) (.ok "cs")
        (fun _ => .ok "r") (fun _ => .err "llm down") =
      .ok { conversationId := "c2", intentAnalysis := ⟨false, []⟩,
            error := some "llm down",
            response := some
              ("I encountered an error while processing your request: " ++
                "llm down") }) ∧
    (∃ tr, chatWorkflowRun "hi" [] "c3" "t0" (.ok ⟨true, ["get_pods"]⟩)
        (.ok "cs") (fun _ => .err "boom") (fun _ => .err "llm down") =
        .ok tr ∧
      tr.error = some "llm down" ∧
      tr.response = some
        ("I encountered an error while processing your request: " ++
          "llm down")) ∧
    ("get_pods" ∉
      ((runToolLoop (fun _ => .err "boom") ["get_pods"]
        { conversationId := "c3", intentAnalysis := ⟨true, ["get_pods"]⟩,
          k8sData := some "cs" }).k8sToolResults.getD []).map Prod.fst) ∧
    (∃ tr, chatWorkflowRun "hi" [] "c4" "t0" (.ok ⟨true, ["get_pods"]⟩)
        (.ok "cs") (fun _ => .err "boom") (fun _ => .ok "answer") = .ok tr ∧
      tr.error = none ∧ tr.response = some "answer") :=
  ⟨(chat_workflow_terminal_result_on_step_failure "hi" [] "c1" "t0"
      ⟨true, []⟩ (.err "cluster down") (fun _ => .ok "r") (fun _ => .ok "a")).1,
   (chat_workflow_terminal_result_on_step_failure "hi" [] "c1" "t0"
      ⟨true, []⟩ (.err "cluster down") (fun _ => .ok "r")
      (fun _ => .ok "a")).2.1 "cluster down" rfl rfl,
   (chat_workflow_terminal_result_on_step_failure "hi" [] "c2" "t0"
      ⟨false, []⟩ (.ok "cs") (fun _ => .ok "r")
      (fun _ => .err "llm down")).2.2.1 "llm down" rfl rfl,
   (chat_workflow_terminal_result_on_step_failure "hi" [] "c3" "t0"
      ⟨true, ["get_pods"]⟩ (.ok "cs") (fun _ => .err "boom")
      (fun _ => .err "llm down")).2.2.2.1 "llm down" "cs" rfl rfl rfl,
   (chat_workflow_terminal_result_on_step_failure "hi" [] "c3" "t0"
      ⟨true, ["get_pods"]⟩ (.ok "cs") (fun _ => .err "boom")
      (fun _ => .err "llm down")).2.2.2.2.1 "cs" "get_pods" "boom" rfl,
   (chat_workflow_terminal_result_on_step_failure "hi" [] "c4" "t0"
      ⟨true, ["get_pods"]⟩ (.ok "cs") (fun _ => .err "boom")
      (fun _ => .ok "answer")).2.2.2.2.2 "cs" "answer" rfl rfl rfl⟩

/-! ## Conversation store (ChatService, chat_service.py) -/

/-- Conversation (models/chat.py) as ChatService stores it: id, optional
title, the required session_id field, messages and the two timestamps. -/
structure ConversationData where
  id : String
  title : Option String
  sessionId : String
  messages : List ChatMessageData
  createdAt : Nat
  updatedAt : Nat
deriving DecidableEq, Repr

/-- ChatService.conversations: the dict from conversation id to
conversation. -/
structure ChatServiceState where
  conversations : List (String × ConversationData)
deriving DecidableEq, Repr

/-- Key lookup in the conversation dict. -/
def lookupConversation : List (String × ConversationData) → String →
    Option ConversationData
  | [], _ => none
  | p :: rest, cid => if p.1 = cid then some p.2 else lookupConversation rest cid

/-- In-place mutation of the conversation object stored under a key. -/
def updateConversation : List (String × ConversationData) → String →
    ConversationData → List (String × ConversationData)
  | [], _, _ => []
  | p :: rest, cid, v =>
    if p.1 = cid then (p.1, v) :: rest else p :: updateConversation rest cid v

/-- Pydantic construction of a Conversation: session_id is declared as a
required field with no default (models/chat.py), so constructing without it
raises ValidationError. -/
def mkConversation (id : String) (title : Option String)
    (sessionId : Option String) (messages : List ChatMessageData)
    (createdAt updatedAt : Nat) : Except String ConversationData :=
  match sessionId with
  | none => .error "ValidationError: session_id Field required"
  | some sid =>
    .ok { id := id, title := title, sessionId := sid, messages := messages,
          createdAt := createdAt, updatedAt := updatedAt }

/-- ChatService.create_conversation: generates a fresh uuid4 id (passed in as
freshId) and constructs the Conversation, passing id, title, messages and the
timestamps but not the required session_id — so the construction raises —
and only on success stores the conversation under the fresh id. -/
def createConversation (freshId : String) (now : Nat) (title : Option String)
    (st : ChatServiceState) :
    Except String ConversationData × ChatServiceState :=
  match mkConversation freshId
      (some (if optStrTruthy title then title.getD ""
        else "Chat " ++ toString now))
      none [] now now with
  | .error e => (.error e, st)
  | .ok conversation =>
    (.ok conversation, ⟨st.conversations ++ [(freshId, conversation)]⟩)

/-- ChatService.get_conversation: an unknown conversation_id falls back to
create_conversation; a construction error propagates to the caller and
leaves the map untouched. -/
def getConversation (freshId : String) (now : Nat) (st : ChatServiceState)
    (conversationId : String) :
    Except String ConversationData × ChatServiceState :=
  match lookupConversation st.conversations conversationId with
  | none => createConversation freshId now none st
  | some c => (.ok c, st)

/-- ChatService.add_message: fetches (or tries to create) the conversation
via get_conversation — a creation failure propagates — then appends a new
message to the conversation object, which lives in the dict under that
object's own id. -/
def addMessage (freshId msgId : String) (now : Nat) (st : ChatServiceState)
    (conversationId role content : String) :
    Except String ChatMessageData × ChatServiceState :=
  match getConversation freshId now st conversationId with
  | (.error e, st1) => (.error e, st1)
  | (.ok conversation, st1) =>
    let message : ChatMessageData :=
      { id := msgId, role := role, content := content, timestamp := now }
    let updated : ConversationData :=
      { conversation with
        messages := conversation.messages ++ [message]
        updatedAt := now }
    (.ok message,
     ⟨updateConversation st1.conversations conversation.id updated⟩)

/-- C10 counterexample: on an empty conversation map, get_conversation of the
unknown id "c-req" does not create and return a brand-new conversation — the
Conversation construction raises ValidationError because create_conversation
never passes the required session_id field — and add_message on the unknown
id propagates the same error; the map is unchanged in both cases. -/
theorem get_conversation_unknown_id_raises_not_creates :
    getConversation "u-new" 7 ⟨[]⟩ "c-req" =
      (.error "ValidationError: session_id Field required", ⟨[]⟩) ∧
    addMessage "u-new" "m1" 7 ⟨[]⟩ "c-req" "user" "hello" =
      (.error "ValidationError: session_id Field required", ⟨[]⟩) :=
  ⟨rfl, rfl⟩

/-- C10 amended: for every conversation_id not in ChatService's map,
get_conversation falls back to create_conversation, whose Conversation
construction raises ValidationError (the required session_id field is never
passed): the error propagates, no conversation is created, add_message on
the unknown id propagates the same error and appends nothing, and the
originally requested id still maps to nothing afterwards. -/
theorem get_conversation_unknown_id_validation_error
    (freshId msgId : String) (now : Nat) (st : ChatServiceState)
    (conversationId role content : String)
    (hmiss : lookupConversation st.conversations conversationId = none) :
    getConversation freshId now st conversationId =
      (.error "ValidationError: session_id Field required", st) ∧
    addMessage freshId msgId now st conversationId role content =
      (.error "ValidationError: session_id Field required", st) ∧
    lookupConversation
      (addMessage freshId msgId now st conversationId role
        content).2.conversations conversationId = none := by
  have hget : getConversation freshId now st conversationId =
      (.error "ValidationError: session_id Field required", st) := by
    rw [getConversation, hmiss]
    rfl
  have hadd : addMessage freshId msgId now st conversationId role content =
      (.error "ValidationError: session_id Field required", st) := by
    rw [addMessage, hget]
  exact ⟨hget, hadd, by rw [hadd]; exact hmiss⟩

/-- Witness for C10 amended: the empty conversation map with requested id
"c-req". -/
theorem get_conversation_unknown_id_validation_error_witness :
    (lookupConversation ([] : List (String × ConversationData)) "c-req" =
      none) ∧
    (getConversation "u-fresh" 7 ⟨[]⟩ "c-req" =
        (.error "ValidationError: session_id Field required", ⟨[]⟩) ∧
      addMessage "u-fresh" "m1" 7 ⟨[]⟩ "c-req" "user" "hello" =
        (.error "ValidationError: session_id Field required", ⟨[]⟩) ∧
      lookupConversation
        (addMessage "u-fresh" "m1" 7 ⟨[]⟩ "c-req" "user"
          "hello").2.conversations "c-req" = none) :=
  ⟨by decide,
   get_conversation_unknown_id_validation_error "u-fresh" "m1" 7 ⟨[]⟩
     "c-req" "user" "hello" (by decide)⟩
